import Mathlib

/-!
Shallow embedding of the native Windows runner of the NAI Launcher
repository (`windows/runner/main.cpp` and `windows/runner/flutter_window.cpp`)
and proofs about its single-instance coordination protocol and native
capability bridge.

Modelling conventions:
* Machine strings (wide strings / UTF-8 byte strings) are `List Nat` of
  code points (resp. bytes).
* Win32 calls are embedded as pure functions over explicit state, or as
  events recorded in a trace when only the side effect matters.
* Fallible calls return `Option`.
-/

namespace NAILauncher

/-! ## Constants from the source -/

/-- `kWakeUpMessage = WM_USER + 1` (`WM_USER = 0x400`), from `main.cpp` and
`flutter_window.cpp`. -/
def kWakeUpMessage : Nat := 0x400 + 1

/-- The Win32 `WM_FONTCHANGE` message code (0x001D), matched in
`FlutterWindow::MessageHandler`. -/
def WM_FONTCHANGE : Nat := 0x001D

/-- Win32 `ERROR_ALREADY_EXISTS` (183), tested after `CreateMutex`. -/
def ERROR_ALREADY_EXISTS : Nat := 183

/-- Win32 `ERROR_NO_SYSTEM_RESOURCES` (1450): a representative error code a
failed `CreateMutex` leaves in the thread's last-error slot. -/
def ERROR_NO_SYSTEM_RESOURCES : Nat := 1450

/-- C `EXIT_SUCCESS`. -/
def EXIT_SUCCESS : Nat := 0

/-- C `EXIT_FAILURE`. -/
def EXIT_FAILURE : Nat := 1

/-- The fixed window-title fragment `L"NAI Launcher"` from
`FindExistingFlutterWindow` in `main.cpp` (code points of the characters). -/
def naiLauncherFragment : List Nat := [78, 65, 73, 32, 76, 97, 117, 110, 99, 104, 101, 114]

/-! ## Instance Guard: the named mutex (`main.cpp`, lines 54-68) -/

/-- The session-wide state of the named mutex
`NAI_Launcher_SingleInstance_Mutex`: whether some process already created it. -/
structure MutexState where
  created : Bool
deriving DecidableEq, Repr

/-- Outcome of one `CreateMutex(nullptr, TRUE, kSingleInstanceMutexName)`
call: the returned handle (`none` models the NULL return on failure), the
value left in the calling thread's `GetLastError()` slot, and the updated
session state. -/
structure CreateMutexResult where
  handle : Option Nat
  lastError : Nat
  state : MutexState
deriving DecidableEq, Repr

/-- `CreateMutex` on the fixed name. `fault = true` models the
resource-exhaustion failure (NULL handle, an error code that is not
`ERROR_ALREADY_EXISTS`). Otherwise the OS primitive is atomic: if the named
mutex already exists the caller gets a handle to it with
`ERROR_ALREADY_EXISTS`; if not, it is created and the last error is 0. -/
def createMutex (fault : Bool) (s : MutexState) : CreateMutexResult :=
  if fault then ⟨none, ERROR_NO_SYSTEM_RESOURCES, s⟩
  else if s.created then ⟨some 1, ERROR_ALREADY_EXISTS, s⟩
  else ⟨some 1, 0, ⟨true⟩⟩

/-- One process's Instance Guard acquisition, exactly as `wWinMain` performs
it: `CreateMutex` followed by
`is_another_instance_running = (GetLastError() == ERROR_ALREADY_EXISTS)`.
Returns (first-instance observation, handle, updated session state); the
first-instance observation is the negation of `is_another_instance_running`.
`GetLastError` is thread-local and reads the value set by this thread's own
`CreateMutex` call, so the whole acquisition is a single atomic step with
respect to other processes. -/
def acquireInstanceGuard (fault : Bool) (s : MutexState) :
    Bool × Option Nat × MutexState :=
  let cm := createMutex fault s
  (!(cm.lastError == ERROR_ALREADY_EXISTS), cm.handle, cm.state)

/-- The two possible interleavings of two atomic Instance Guard
acquisitions by independent processes A and B. -/
inductive Interleaving where
  | aThenB
  | bThenA
deriving DecidableEq, Repr

/-- Run processes A's and B's acquisitions in the given order, starting from
mutex state `s`, neither call faulting; result is (A's first-instance
observation, B's first-instance observation). -/
def runTwoAcquisitions (o : Interleaving) (s : MutexState) : Bool × Bool :=
  match o with
  | .aThenB =>
    let ra := acquireInstanceGuard false s
    let rb := acquireInstanceGuard false ra.2.2
    (ra.1, rb.1)
  | .bThenA =>
    let rb := acquireInstanceGuard false s
    let ra := acquireInstanceGuard false rb.2.2
    (ra.1, rb.1)

/-! ## Window Locator (`main.cpp`, `FindExistingFlutterWindow`, lines 16-29) -/

/-- A top-level window of the desktop session: its handle, its full title
(code points) and whether it is currently minimized (`IsIconic`). -/
structure Window where
  handle : Nat
  title : List Nat
  minimized : Bool
deriving DecidableEq, Repr

/-- `GetWindowText(hwnd, title, 256)`: the title as read into the
256-wide buffer, i.e. at most 255 characters plus the terminator. -/
def getWindowText (w : Window) : List Nat := w.title.take 255

/-- `frag` is a prefix of `t`, character by character (the inner loop of
`wcsstr`). -/
def hasPrefixL : List Nat → List Nat → Bool
  | [], _ => true
  | _ :: _, [] => false
  | a :: s, b :: t => a == b && hasPrefixL s t

/-- `wcsstr(hay, frag) != nullptr`: `frag` occurs in `hay` as a contiguous,
case-sensitive substring (an empty `frag` always occurs). -/
def containsFrag (frag : List Nat) : List Nat → Bool
  | [] => frag.isEmpty
  | a :: rest => hasPrefixL frag (a :: rest) || containsFrag frag rest

/-- `FindExistingFlutterWindow`, generalized over the title fragment: walk
the top-level windows in enumeration order (`FindWindowEx` chain), read each
title with `GetWindowText` into the 256-wide buffer, and return the first
window whose (truncated) title contains the fragment; `none` when no window
matches. The source returns the HWND; the model returns the window record
itself, which carries the handle. -/
def findExistingFlutterWindow (frag : List Nat) : List Window → Option Window
  | [] => none
  | w :: ws =>
    if containsFrag frag (getWindowText w) then some w
    else findExistingFlutterWindow frag ws

/-- The source's instantiation: the fragment is the fixed `L"NAI Launcher"`. -/
def findExistingNAI (ws : List Window) : Option Window :=
  findExistingFlutterWindow naiLauncherFragment ws

/-- Modelled from the spec's words, for comparison with the source's
locator: "returns the first whose title contains `fragment` as a substring",
with no truncation of the title. -/
def specFindFirstByTitle (frag : List Nat) : List Window → Option Window
  | [] => none
  | w :: ws =>
    if containsFrag frag w.title then some w else specFindFirstByTitle frag ws

/-! ## Wake Notifier (`main.cpp`, `WakeUpExistingWindow`, lines 32-44) -/

/-- The Win32 calls `WakeUpExistingWindow` makes on the located window, as
trace events. `sendMessage` embeds Win32 `SendMessage`, which is synchronous:
it does not return until the receiving window procedure has processed the
message. `postMessage` embeds Win32 `PostMessage`, the asynchronous variant
that queues the message and returns at once; the source never calls it, but
the constructor is needed to state the spec's asynchrony property. -/
inductive WakeEvent where
  | showWindowRestore (handle : Nat)
  | setForegroundWindow (handle : Nat)
  | sendMessage (handle : Nat) (message : Nat)
  | postMessage (handle : Nat) (message : Nat)
deriving DecidableEq, Repr

/-- Whether the event carries the reserved wake Signal to a window. -/
def deliversWakeSignal : WakeEvent → Bool
  | .sendMessage _ m => m == kWakeUpMessage
  | .postMessage _ m => m == kWakeUpMessage
  | _ => false

/-- Whether the event is an asynchronous delivery: per Win32 semantics,
`PostMessage` queues and returns without waiting, while `SendMessage` blocks
until the receiver has processed the message (and `ShowWindow` /
`SetForegroundWindow` deliver nothing). -/
def deliveryIsAsynchronous : WakeEvent → Bool
  | .postMessage _ _ => true
  | _ => false

/-- `WakeUpExistingWindow`: locate the window by the fixed fragment; if one
is found, restore it when minimized (`IsIconic` / `ShowWindow(SW_RESTORE)`),
bring it to the foreground, and deliver the wake Signal with
`SendMessage(existing_window, kWakeUpMessage, 0, 0)`. Returns the trace of
Win32 calls made. -/
def wakeUpExistingWindow (ws : List Window) : List WakeEvent :=
  match findExistingNAI ws with
  | none => []
  | some w =>
    (if w.minimized then [WakeEvent.showWindowRestore w.handle] else []) ++
    [WakeEvent.setForegroundWindow w.handle,
     WakeEvent.sendMessage w.handle kWakeUpMessage]

/-! ## `wWinMain` (`main.cpp`, lines 46-102) -/

/-- The environment `wWinMain` runs against: whether `CreateMutex` faults,
whether another instance already created the named mutex, the top-level
windows of the session, and whether `window.Create` succeeds. -/
structure MainInput where
  mutexFault : Bool
  otherInstance : Bool
  windows : List Window
  windowCreateOk : Bool
deriving DecidableEq, Repr

/-- What a run of `wWinMain` did: its return value, the Wake Notifier trace
(empty if `WakeUpExistingWindow` was never called), whether the primary
window was created, whether the message loop ran, and whether
`CloseHandle(single_instance_mutex)` was reached. -/
structure MainOutcome where
  exitCode : Nat
  wakeEvents : List WakeEvent
  windowCreated : Bool
  ranMessageLoop : Bool
  closedMutexHandle : Bool
deriving DecidableEq, Repr

/-- `wWinMain`: acquire the single-instance mutex; if
`GetLastError() == ERROR_ALREADY_EXISTS`, wake the existing window, close
the handle when non-null, and return `EXIT_SUCCESS`. Otherwise create the
primary window (returning `EXIT_FAILURE` at once when `Create` fails,
without reaching `CloseHandle`), run the message loop, close the handle when
non-null, and return `EXIT_SUCCESS`. -/
def wWinMain (inp : MainInput) : MainOutcome :=
  let cm := createMutex inp.mutexFault ⟨inp.otherInstance⟩
  let isAnother := cm.lastError == ERROR_ALREADY_EXISTS
  if isAnother then
    { exitCode := EXIT_SUCCESS
      wakeEvents := wakeUpExistingWindow inp.windows
      windowCreated := false
      ranMessageLoop := false
      closedMutexHandle := cm.handle.isSome }
  else if inp.windowCreateOk then
    { exitCode := EXIT_SUCCESS
      wakeEvents := []
      windowCreated := true
      ranMessageLoop := true
      closedMutexHandle := cm.handle.isSome }
  else
    { exitCode := EXIT_FAILURE
      wakeEvents := []
      windowCreated := false
      ranMessageLoop := false
      closedMutexHandle := false }

/-! ## Font Enumerator (`flutter_window.cpp`, lines 12-52) -/

/-- Strict lexicographic order on wide strings: `std::wstring`'s
`operator<`, which `std::set<std::wstring>` orders by. -/
def wsLt : List Nat → List Nat → Bool
  | [], [] => false
  | [], _ :: _ => true
  | _ :: _, [] => false
  | a :: s, b :: t => if a < b then true else if b < a then false else wsLt s t

/-- `std::set::insert` on the sorted-unique list representation of
`std::set<std::wstring>`: insert in order, ignore an element already
present. -/
def setInsert (x : List Nat) : List (List Nat) → List (List Nat)
  | [] => [x]
  | y :: ys =>
    if wsLt x y then x :: y :: ys
    else if wsLt y x then y :: setInsert x ys
    else y :: ys

/-- `EnumFontFamExProc` acting on the accumulated `g_font_names` state:
skip a face whose name begins with `L'@'` (code point 64), insert every
other face name into the set. (The callback also returns 1 to continue the
enumeration, so every reported face is processed.) -/
def enumFontFamExProc (g : List (List Nat)) (faceName : List Nat) : List (List Nat) :=
  if faceName.head? = some 64 then g else setInsert faceName g

/-- The full `EnumFontFamiliesExW` pass: the OS invokes the callback once
per reported face, in report order, threading the `g_font_names` state. -/
def runFontEnum (g : List (List Nat)) (faces : List (List Nat)) : List (List Nat) :=
  faces.foldl enumFontFamExProc g

/-- UTF-8 encoding of one code point, the transformation
`WideCharToMultiByte(CP_UTF8, ...)` applies per character. -/
def utf8EncodeChar (c : Nat) : List Nat :=
  if c < 128 then [c]
  else if c < 2048 then [192 + c / 64, 128 + c % 64]
  else if c < 65536 then [224 + c / 4096, 128 + c / 64 % 64, 128 + c % 64]
  else [240 + c / 262144, 128 + c / 4096 % 64, 128 + c / 64 % 64, 128 + c % 64]

/-- UTF-8 encoding of a wide string (`WideCharToMultiByte(CP_UTF8, 0, name,
-1, ...)`, without the terminating byte). -/
def utf8Encode : List Nat → List Nat
  | [] => []
  | c :: rest => utf8EncodeChar c ++ utf8Encode rest

/-- The byte count `WideCharToMultiByte` reports for a name: encoded length
plus the terminating NUL (the `size` the source tests with `size > 0`). -/
def utf8Size (name : List Nat) : Nat := (utf8Encode name).length + 1

/-- `GetSystemFonts`: clear the global `g_font_names`, run the enumeration
pass over the faces the OS reports, then walk the set in order converting
each name to UTF-8 (pushing it only when the reported `size > 0`). Returns
the result vector together with the `g_font_names` state left behind. -/
def getSystemFonts (g : List (List Nat)) (faces : List (List Nat)) :
    List (List Nat) × List (List Nat) :=
  let cleared : List (List Nat) := []
  let names := runFontEnum cleared faces
  (names.foldr
     (fun name acc => if 0 < utf8Size name then utf8Encode name :: acc else acc)
     [],
   names)

/-! ## Capability Bridge (`flutter_window.cpp`, lines 62-151) -/

/-- The outcomes a `flutter::MethodResult` can report: a success payload, an
explicit error, or not-implemented. -/
inductive MethodOutcome where
  | success (payload : List (List Nat))
  | error (code message : List Nat)
  | notImplemented
deriving DecidableEq, Repr

/-- The `com.nailauncher/system_fonts` method-call handler installed in
`FlutterWindow::OnCreate`: `"getSystemFonts"` answers with the font list as
a success payload; every other method name answers `NotImplemented`. `g` is
the `g_font_names` state and `faces` the faces the OS reports when
`GetSystemFonts` runs. -/
def systemFontsCallHandler (g : List (List Nat)) (faces : List (List Nat))
    (methodName : String) : MethodOutcome :=
  if methodName = "getSystemFonts" then
    MethodOutcome.success (getSystemFonts g faces).1
  else
    MethodOutcome.notImplemented

/-- The bridge-level actions `FlutterWindow::MessageHandler`'s switch can
perform: the direct engine call `ReloadSystemFonts()` on `WM_FONTCHANGE`,
and `InvokeMethod("wakeUp", nullptr)` on the `com.nailauncher/window_control`
channel on `kWakeUpMessage`. -/
inductive BridgeAction where
  | reloadSystemFonts
  | invokeWakeUp
deriving DecidableEq, Repr

/-- What one `FlutterWindow::MessageHandler` call produced: the LRESULT
returned and the bridge actions performed. -/
structure HandlerResult where
  lresult : Int
  actions : List BridgeAction
deriving DecidableEq, Repr

/-- `FlutterWindow::MessageHandler` with the controller present:
`hookResult` is what `flutter_controller_->HandleTopLevelWindowProc`
returned for the message — when it is `some r`, the function returns `r` at
once and the switch is never reached; only when it is `none` does the switch
run (`WM_FONTCHANGE` reloads the engine's fonts, `kWakeUpMessage` invokes
`wakeUp` on the window-control channel) before falling through to
`Win32Window::MessageHandler`, whose result is `defaultResult`. -/
def messageHandler (hookResult : Option Int) (defaultResult : Int)
    (message : Nat) : HandlerResult :=
  match hookResult with
  | some r => { lresult := r, actions := [] }
  | none =>
    let actions :=
      if message = WM_FONTCHANGE then [BridgeAction.reloadSystemFonts]
      else if message = kWakeUpMessage then [BridgeAction.invokeWakeUp]
      else []
    { lresult := defaultResult, actions := actions }

/-! ## Concrete windows used as test inputs -/

/-- A window titled exactly `"NAI Launcher"`. -/
def wNai : Window := ⟨7, naiLauncherFragment, false⟩

/-- A window whose title is 255 copies of `'a'` followed by
`"NAI Launcher"`: the fragment's only occurrence starts at character 255,
beyond what the 256-wide `GetWindowText` buffer holds. -/
def wLong : Window := ⟨2, List.replicate 255 97 ++ naiLauncherFragment, false⟩

/-! ## Theorems -/

/-- C1: when two independent processes each perform the Instance Guard
acquisition (`CreateMutex` on the fixed name followed by the
`GetLastError() == ERROR_ALREADY_EXISTS` test) on a session where the named
mutex does not yet exist, exactly one of them observes
first-instance = true and the other observes false, for every interleaving
of the two (atomic) acquisitions. -/
theorem instance_guard_exactly_one_first (o : Interleaving) (s : MutexState)
    (h : s.created = false) :
    ((runTwoAcquisitions o s).1 = true ∧ (runTwoAcquisitions o s).2 = false) ∨
      ((runTwoAcquisitions o s).1 = false ∧ (runTwoAcquisitions o s).2 = true) := by
  obtain ⟨c⟩ := s
  simp only at h
  subst h
  cases o <;> simp [runTwoAcquisitions, acquireInstanceGuard, createMutex,
    ERROR_ALREADY_EXISTS]

/-- Witness for C1: the A-then-B interleaving from the fresh session. -/
theorem instance_guard_exactly_one_first_witness :
    (MutexState.mk false).created = false ∧
      (((runTwoAcquisitions Interleaving.aThenB ⟨false⟩).1 = true ∧
          (runTwoAcquisitions Interleaving.aThenB ⟨false⟩).2 = false) ∨
        ((runTwoAcquisitions Interleaving.aThenB ⟨false⟩).1 = false ∧
          (runTwoAcquisitions Interleaving.aThenB ⟨false⟩).2 = true)) :=
  ⟨rfl, instance_guard_exactly_one_first Interleaving.aThenB ⟨false⟩ rfl⟩

/-- C2 (evaluating the code at the failing input): when `CreateMutex`
returns NULL without `ERROR_ALREADY_EXISTS` (resource exhaustion) and window
creation succeeds, `wWinMain` does NOT abort: it proceeds as the first
instance, creates the window, runs the message loop and returns
`EXIT_SUCCESS` — and, the handle being NULL, never reaches `CloseHandle`. -/
theorem mutex_fault_startup_eval :
    wWinMain ⟨true, false, [], true⟩ =
      { exitCode := EXIT_SUCCESS
        wakeEvents := []
        windowCreated := true
        ranMessageLoop := true
        closedMutexHandle := false } := by
  rfl

/-- C4 counterexample: with the embedded runtime's window-procedure hook
reporting the wake Signal fully handled (`HandleTopLevelWindowProc`
returning `some 0`), `FlutterWindow::MessageHandler` returns the hook's
result at once and the bridge's own switch performs no action — `wakeUp` is
not emitted, contradicting the claim that the switch always inspects the
Signal regardless. -/
theorem bridge_switch_skipped_when_hook_handles :
    messageHandler (some 0) 0 kWakeUpMessage = { lresult := 0, actions := [] } ∧
      BridgeAction.invokeWakeUp ∉ (messageHandler (some 0) 0 kWakeUpMessage).actions := by
  decide

/-- C4 amended: the bridge's switch inspects the wake Signal and the
font-change notification only when the embedded runtime's hook produced no
result; when the hook reports a message handled, its result is returned
immediately and no bridge action is performed for that message. -/
theorem bridge_switch_only_when_hook_passes (d r : Int) (m : Nat) :
    (messageHandler none d WM_FONTCHANGE).actions = [BridgeAction.reloadSystemFonts] ∧
      (messageHandler none d kWakeUpMessage).actions = [BridgeAction.invokeWakeUp] ∧
      messageHandler (some r) d m = { lresult := r, actions := [] } :=
  ⟨rfl, rfl, rfl⟩

/-- C7: every method call on the `com.nailauncher/system_fonts` channel
whose method name is not `"getSystemFonts"` is answered with the explicit
not-implemented outcome — in particular never a success payload and never a
generic error. -/
theorem unknown_method_not_implemented (g faces : List (List Nat))
    (name : String) (h : name ≠ "getSystemFonts") :
    systemFontsCallHandler g faces name = MethodOutcome.notImplemented := by
  simp [systemFontsCallHandler, h]

/-- Witness for C7: the method name `"unknownMethod"`. -/
theorem unknown_method_not_implemented_witness :
    "unknownMethod" ≠ "getSystemFonts" ∧
      systemFontsCallHandler [] [] "unknownMethod" = MethodOutcome.notImplemented :=
  ⟨by decide, unknown_method_not_implemented [] [] "unknownMethod" (by decide)⟩

/-- C8 counterexample: with the mutex acquired (`CreateMutex` returned a
handle) but window creation failing, `wWinMain` returns `EXIT_FAILURE`
without ever reaching `CloseHandle` — the window-creation-failure exit path
does not release the handle, contradicting the claim. -/
theorem create_failure_skips_close :
    (createMutex false ⟨false⟩).handle = some 1 ∧
      (wWinMain ⟨false, false, [], false⟩).exitCode = EXIT_FAILURE ∧
      (wWinMain ⟨false, false, [], false⟩).closedMutexHandle = false := by
  decide

/-- C8 amended: when `CreateMutex` does not fault, `wWinMain` reaches
`CloseHandle` exactly on the normal-shutdown and wake-and-exit paths; on the
window-creation-failure exit it returns without closing the handle (the OS
reclaims it at process termination). -/
theorem close_handle_iff_success_paths (inp : MainInput)
    (h : inp.mutexFault = false) :
    (wWinMain inp).closedMutexHandle = true ↔
      (inp.otherInstance = true ∨ inp.windowCreateOk = true) := by
  obtain ⟨f, oi, ws, ok⟩ := inp
  simp only at h
  subst h
  cases oi <;> cases ok <;>
    simp [wWinMain, createMutex, ERROR_ALREADY_EXISTS]

/-- Witness for C8 amended: the wake-and-exit path closes the handle. -/
theorem close_handle_iff_success_paths_witness :
    (MainInput.mk false true [] false).mutexFault = false ∧
      ((wWinMain ⟨false, true, [], false⟩).closedMutexHandle = true ↔
        ((MainInput.mk false true [] false).otherInstance = true ∨
          (MainInput.mk false true [] false).windowCreateOk = true)) :=
  ⟨rfl, close_handle_iff_success_paths ⟨false, true, [], false⟩ rfl⟩

/-- C9: the contents `GetSystemFonts` returns depend only on the faces the
OS reports, not on the `g_font_names` state left behind by any earlier call
(the function clears the global set first): two successive calls over the
same OS font catalog return identical lists, the second running on the state
the first left behind. -/
theorem font_query_state_independent (g g2 faces : List (List Nat)) :
    (getSystemFonts g faces).1 = (getSystemFonts g2 faces).1 ∧
      (getSystemFonts (getSystemFonts g faces).2 faces).1 =
        (getSystemFonts g faces).1 :=
  ⟨rfl, rfl⟩

/-- C3 counterexample: with a window titled `"NAI Launcher"` present, the
Wake Notifier locates it and delivers the wake Signal — but the delivering
event is a `SendMessage`, and no event of the trace that carries the Signal
is an asynchronous delivery, contradicting the claim that the third step
posts asynchronously without waiting. -/
theorem wake_delivery_not_asynchronous :
    findExistingNAI [wNai] = some wNai ∧
      WakeEvent.sendMessage wNai.handle kWakeUpMessage ∈ wakeUpExistingWindow [wNai] ∧
      ∀ e ∈ wakeUpExistingWindow [wNai],
        deliversWakeSignal e = true → deliveryIsAsynchronous e = false := by
  decide

/-- C3 amended: for every located window, the Wake Notifier's third step
delivers the reserved wake Signal to that window synchronously, via
`SendMessage`, which does not return until the receiving window procedure
has processed the message; no delivery in the trace is asynchronous. -/
theorem wake_delivery_synchronous (ws : List Window) (w : Window)
    (h : findExistingNAI ws = some w) :
    WakeEvent.sendMessage w.handle kWakeUpMessage ∈ wakeUpExistingWindow ws ∧
      ∀ e ∈ wakeUpExistingWindow ws,
        deliversWakeSignal e = true → deliveryIsAsynchronous e = false := by
  unfold wakeUpExistingWindow
  rw [h]
  constructor
  · cases w.minimized <;> simp
  · intro e he
    cases hm : w.minimized
    · simp [hm] at he
      rcases he with h1 | h1 <;> subst h1 <;> intro _ <;> rfl
    · simp [hm] at he
      rcases he with h1 | h1 | h1 <;> subst h1 <;> intro _ <;> rfl

/-- Witness for C3 amended: the single-window session. -/
theorem wake_delivery_synchronous_witness :
    findExistingNAI [wNai] = some wNai ∧
      (WakeEvent.sendMessage wNai.handle kWakeUpMessage ∈ wakeUpExistingWindow [wNai] ∧
        ∀ e ∈ wakeUpExistingWindow [wNai],
          deliversWakeSignal e = true → deliveryIsAsynchronous e = false) :=
  ⟨by decide, wake_delivery_synchronous [wNai] wNai (by decide)⟩

/-! ### Order lemmas for the `std::set` embedding -/

theorem wsLt_irrefl (s : List Nat) : wsLt s s = false := by
  induction s with
  | nil => rfl
  | cons a s ih => simp [wsLt, Nat.lt_irrefl, ih]

theorem wsLt_ne {s t : List Nat} (h : wsLt s t = true) : s ≠ t := by
  intro e
  subst e
  rw [wsLt_irrefl] at h
  exact Bool.false_ne_true h

theorem wsLt_eq_of_not_lt :
    ∀ {s t : List Nat}, wsLt s t = false → wsLt t s = false → s = t := by
  intro s
  induction s with
  | nil =>
    intro t h1 _
    cases t with
    | nil => rfl
    | cons b t => simp [wsLt] at h1
  | cons a s ih =>
    intro t h1 h2
    cases t with
    | nil => simp [wsLt] at h2
    | cons b t =>
      simp only [wsLt] at h1 h2
      by_cases hab : a < b
      · rw [if_pos hab] at h1
        exact absurd h1 (by simp)
      · rw [if_neg hab] at h1
        by_cases hba : b < a
        · rw [if_pos hba] at h2
          exact absurd h2 (by simp)
        · rw [if_neg hba] at h2
          rw [if_neg hba] at h1
          rw [if_neg hab] at h2
          have : a = b := by omega
          subst this
          rw [ih h1 h2]

theorem wsLt_trans :
    ∀ {s t u : List Nat}, wsLt s t = true → wsLt t u = true → wsLt s u = true := by
  intro s
  induction s with
  | nil =>
    intro t u h1 h2
    cases t with
    | nil => simp [wsLt] at h1
    | cons y t =>
      cases u with
      | nil => simp [wsLt] at h2
      | cons z u => rfl
  | cons x s ih =>
    intro t u h1 h2
    cases t with
    | nil => simp [wsLt] at h1
    | cons y t =>
      cases u with
      | nil => simp [wsLt] at h2
      | cons z u =>
        simp only [wsLt] at h1 h2 ⊢
        by_cases hxy : x < y
        · by_cases hyz : y < z
          · rw [if_pos (Nat.lt_trans hxy hyz)]
          · rw [if_neg hyz] at h2
            by_cases hzy : z < y
            · rw [if_pos hzy] at h2
              exact absurd h2 (by simp)
            · have : y = z := by omega
              subst this
              rw [if_pos hxy]
        · rw [if_neg hxy] at h1
          by_cases hyx : y < x
          · rw [if_pos hyx] at h1
            exact absurd h1 (by simp)
          · rw [if_neg hyx] at h1
            have : x = y := by omega
            subst this
            by_cases hyz : x < z
            · rw [if_pos hyz]
            · rw [if_neg hyz] at h2 ⊢
              by_cases hzy : z < x
              · rw [if_pos hzy] at h2
                exact absurd h2 (by simp)
              · rw [if_neg hzy] at h2 ⊢
                exact ih h1 h2

/-- The sortedness predicate `std::set`'s representation maintains. -/
def WsSorted (l : List (List Nat)) : Prop :=
  List.Pairwise (fun a b => wsLt a b = true) l

theorem mem_setInsert :
    ∀ {x y : List Nat} {g : List (List Nat)},
      y ∈ setInsert x g → y = x ∨ y ∈ g := by
  intro x y g
  induction g with
  | nil =>
    intro h
    simp only [setInsert] at h
    exact Or.inl (List.mem_singleton.mp h)
  | cons z g ih =>
    intro h
    simp only [setInsert] at h
    by_cases h1 : wsLt x z = true
    · rw [if_pos h1] at h
      rcases List.mem_cons.mp h with h | h
      · exact Or.inl h
      · exact Or.inr h
    · rw [if_neg h1] at h
      by_cases h2 : wsLt z x = true
      · rw [if_pos h2] at h
        rcases List.mem_cons.mp h with h | h
        · subst h
          exact Or.inr (List.mem_cons_self y g)
        · rcases ih h with h3 | h3
          · exact Or.inl h3
          · exact Or.inr (List.mem_cons_of_mem z h3)
      · rw [if_neg h2] at h
        exact Or.inr h

theorem setInsert_sorted {x : List Nat} :
    ∀ {g : List (List Nat)}, WsSorted g → WsSorted (setInsert x g) := by
  intro g
  induction g with
  | nil =>
    intro _
    exact List.pairwise_singleton _ _
  | cons z g ih =>
    intro hg
    rcases List.pairwise_cons.mp hg with ⟨hz, hg2⟩
    simp only [setInsert]
    by_cases h1 : wsLt x z = true
    · rw [if_pos h1]
      refine List.pairwise_cons.mpr ⟨?_, hg⟩
      intro b hb
      rcases List.mem_cons.mp hb with h | h
      · rw [h]; exact h1
      · exact wsLt_trans h1 (hz b h)
    · rw [if_neg h1]
      by_cases h2 : wsLt z x = true
      · rw [if_pos h2]
        refine List.pairwise_cons.mpr ⟨?_, ih hg2⟩
        intro b hb
        rcases mem_setInsert hb with h | h
        · rw [h]; exact h2
        · exact hz b h
      · rw [if_neg h2]
        exact hg

theorem runFontEnum_sorted (faces : List (List Nat)) :
    ∀ {g : List (List Nat)}, WsSorted g → WsSorted (runFontEnum g faces) := by
  induction faces with
  | nil =>
    intro g hg
    exact hg
  | cons f fs ih =>
    intro g hg
    have : WsSorted (enumFontFamExProc g f) := by
      unfold enumFontFamExProc
      by_cases h : f.head? = some 64
      · rw [if_pos h]; exact hg
      · rw [if_neg h]; exact setInsert_sorted hg
    exact ih this

theorem runFontEnum_head_ne (faces : List (List Nat)) :
    ∀ {g : List (List Nat)}, (∀ y ∈ g, y.head? ≠ some 64) →
      ∀ y ∈ runFontEnum g faces, y.head? ≠ some 64 := by
  induction faces with
  | nil =>
    intro g hg
    exact hg
  | cons f fs ih =>
    intro g hg
    refine ih ?_
    intro y hy
    unfold enumFontFamExProc at hy
    by_cases h : f.head? = some 64
    · rw [if_pos h] at hy
      exact hg y hy
    · rw [if_neg h] at hy
      rcases mem_setInsert hy with h2 | h2
      · rw [h2]; exact h
      · exact hg y h2

/-! ### UTF-8 conversion lemmas -/

theorem utf8EncodeChar_ne_nil (c : Nat) : utf8EncodeChar c ≠ [] := by
  unfold utf8EncodeChar
  split_ifs <;> simp

theorem head?_append_left {l r : List Nat} (h : l ≠ []) :
    (l ++ r).head? = l.head? := by
  cases l with
  | nil => exact absurd rfl h
  | cons a l2 => rfl

theorem utf8EncodeChar_length_eq_of_head (c d : Nat)
    (h : (utf8EncodeChar c).head? = (utf8EncodeChar d).head?) :
    (utf8EncodeChar c).length = (utf8EncodeChar d).length := by
  unfold utf8EncodeChar at h ⊢
  split_ifs at h ⊢ <;>
    simp only [List.head?_cons, Option.some.injEq] at h <;>
    simp only [List.length_cons, List.length_nil] <;>
    omega

theorem utf8EncodeChar_inj {c d : Nat}
    (h : utf8EncodeChar c = utf8EncodeChar d) : c = d := by
  unfold utf8EncodeChar at h
  split_ifs at h <;> simp only [List.cons.injEq, and_true] at h <;> omega

theorem utf8Encode_injective : Function.Injective utf8Encode := by
  intro s
  induction s with
  | nil =>
    intro t h
    cases t with
    | nil => rfl
    | cons d t2 =>
      rw [utf8Encode, utf8Encode] at h
      rcases List.append_eq_nil.mp h.symm with ⟨h1, _⟩
      exact absurd h1 (utf8EncodeChar_ne_nil d)
  | cons c s2 ih =>
    intro t h
    cases t with
    | nil =>
      rw [utf8Encode, utf8Encode] at h
      rcases List.append_eq_nil.mp h with ⟨h1, _⟩
      exact absurd h1 (utf8EncodeChar_ne_nil c)
    | cons d t2 =>
      rw [utf8Encode, utf8Encode] at h
      have hh : (utf8EncodeChar c).head? = (utf8EncodeChar d).head? := by
        have := congrArg List.head? h
        rwa [head?_append_left (utf8EncodeChar_ne_nil c),
          head?_append_left (utf8EncodeChar_ne_nil d)] at this
      have hlen := utf8EncodeChar_length_eq_of_head c d hh
      rcases List.append_inj h hlen with ⟨h1, h2⟩
      rw [utf8EncodeChar_inj h1, ih h2]

theorem utf8Encode_head_ne (name : List Nat) (h : name.head? ≠ some 64) :
    (utf8Encode name).head? ≠ some 64 := by
  cases name with
  | nil =>
    rw [utf8Encode]
    simp
  | cons c rest =>
    have hc : c ≠ 64 := by
      intro e
      subst e
      exact h rfl
    rw [utf8Encode, head?_append_left (utf8EncodeChar_ne_nil c)]
    unfold utf8EncodeChar
    split_ifs <;> simp only [ne_eq, List.head?_cons, Option.some.injEq] <;> omega

theorem getSystemFonts_fst_eq_map (g faces : List (List Nat)) :
    (getSystemFonts g faces).1 = (runFontEnum [] faces).map utf8Encode := by
  show (runFontEnum [] faces).foldr
      (fun name acc => if 0 < utf8Size name then utf8Encode name :: acc else acc) [] =
    (runFontEnum [] faces).map utf8Encode
  induction runFontEnum [] faces with
  | nil => rfl
  | cons a l ih =>
    have hp : 0 < utf8Size a := Nat.succ_pos (utf8Encode a).length
    rw [List.foldr_cons, if_pos hp, ih, List.map_cons]

/-- C5: no two entries of the list `GetSystemFonts` returns are equal, and
no entry begins with the reserved vertical-font marker `'@'` (byte 64),
whatever faces the OS reports and whatever state the global set held
before. -/
theorem font_catalog_nodup_no_vertical (g faces : List (List Nat)) :
    ((getSystemFonts g faces).1).Nodup ∧
      ∀ e ∈ (getSystemFonts g faces).1, e.head? ≠ some 64 := by
  rw [getSystemFonts_fst_eq_map]
  constructor
  · have hs : WsSorted (runFontEnum [] faces) :=
      runFontEnum_sorted faces List.Pairwise.nil
    have hnd : (runFontEnum [] faces).Nodup :=
      hs.imp fun hab => wsLt_ne hab
    exact hnd.map utf8Encode_injective
  · intro e he
    rcases List.mem_map.mp he with ⟨name, hmem, henc⟩
    have hh : name.head? ≠ some 64 :=
      runFontEnum_head_ne faces (by intro y hy; simp at hy) name hmem
    rw [← henc]
    exact utf8Encode_head_ne name hh

/-! ### Window Locator lemmas -/

theorem hasPrefixL_length_le :
    ∀ {f t : List Nat}, hasPrefixL f t = true → f.length ≤ t.length := by
  intro f
  induction f with
  | nil =>
    intro t _
    exact Nat.zero_le _
  | cons a f ih =>
    intro t h
    cases t with
    | nil => simp [hasPrefixL] at h
    | cons b t =>
      simp only [hasPrefixL, Bool.and_eq_true] at h
      simpa [List.length_cons] using ih h.2

theorem hasPrefixL_take :
    ∀ {f : List Nat} {n : Nat} {t : List Nat},
      hasPrefixL f (t.take n) = true → hasPrefixL f t = true := by
  intro f
  induction f with
  | nil =>
    intro n t _
    rfl
  | cons a f ih =>
    intro n t h
    cases t with
    | nil =>
      rw [List.take_nil] at h
      simp [hasPrefixL] at h
    | cons b t =>
      cases n with
      | zero => simp [hasPrefixL] at h
      | succ m =>
        rw [List.take_succ_cons] at h
        simp only [hasPrefixL, Bool.and_eq_true] at h ⊢
        exact ⟨h.1, ih h.2⟩

theorem containsFrag_exists :
    ∀ {f hay : List Nat}, containsFrag f hay = true →
      ∃ i, i ≤ hay.length ∧ hasPrefixL f (hay.drop i) = true := by
  intro f hay
  induction hay with
  | nil =>
    intro h
    refine ⟨0, Nat.le_refl 0, ?_⟩
    rw [containsFrag] at h
    rcases List.isEmpty_iff.mp h with rfl
    rfl
  | cons a rest ih =>
    intro h
    rw [containsFrag, Bool.or_eq_true] at h
    rcases h with h | h
    · exact ⟨0, Nat.zero_le _, h⟩
    · rcases ih h with ⟨i, hi, hp⟩
      exact ⟨i + 1, by simpa [List.length_cons] using Nat.succ_le_succ hi, hp⟩

theorem findExisting_none_iff (frag : List Nat) :
    ∀ ws : List Window, findExistingFlutterWindow frag ws = none ↔
      ∀ w ∈ ws, containsFrag frag (getWindowText w) = false := by
  intro ws
  induction ws with
  | nil => simp [findExistingFlutterWindow]
  | cons w0 rest ih =>
    rw [findExistingFlutterWindow]
    by_cases hc : containsFrag frag (getWindowText w0) = true
    · rw [if_pos hc]
      constructor
      · intro h
        exact absurd h (by simp)
      · intro hall
        have h0 := hall w0 (List.mem_cons_self w0 rest)
        rw [hc] at h0
        exact absurd h0 (by simp)
    · rw [if_neg hc]
      rw [ih]
      constructor
      · intro hall v hv
        rcases List.mem_cons.mp hv with rfl | hv2
        · exact Bool.of_not_eq_true hc
        · exact hall v hv2
      · intro hall v hv
        exact hall v (List.mem_cons_of_mem w0 hv)

theorem findExisting_some (frag : List Nat) :
    ∀ (ws : List Window) (w : Window),
      findExistingFlutterWindow frag ws = some w →
      containsFrag frag (getWindowText w) = true ∧
      ∃ pre post, ws = pre ++ w :: post ∧
        ∀ v ∈ pre, containsFrag frag (getWindowText v) = false := by
  intro ws
  induction ws with
  | nil =>
    intro w h
    simp [findExistingFlutterWindow] at h
  | cons w0 rest ih =>
    intro w h
    rw [findExistingFlutterWindow] at h
    by_cases hc : containsFrag frag (getWindowText w0) = true
    · rw [if_pos hc] at h
      rcases Option.some.inj h with rfl
      exact ⟨hc, [], rest, rfl, by intro v hv; simp at hv⟩
    · rw [if_neg hc] at h
      rcases ih w h with ⟨h1, pre, post, rfl, hpre⟩
      refine ⟨h1, w0 :: pre, post, rfl, ?_⟩
      intro v hv
      rcases List.mem_cons.mp hv with rfl | hv2
      · exact Bool.of_not_eq_true hc
      · exact hpre v hv2

set_option maxRecDepth 4000 in
/-- C6 counterexample: a window whose full title contains `"NAI Launcher"`
(only from position 255 on) is not found by the locator — it returns `none`
although the spec-side first-match over untruncated titles returns the
window, refuting the claim that the locator returns the first window whose
title contains the fragment. -/
theorem locator_misses_match_beyond_255 :
    containsFrag naiLauncherFragment wLong.title = true ∧
      findExistingFlutterWindow naiLauncherFragment [wLong] = none ∧
      specFindFirstByTitle naiLauncherFragment [wLong] = some wLong := by
  refine ⟨?_, ?_, ?_⟩ <;> decide

/-- C6 amended: the locator returns the first window (in enumeration order)
whose title, as read by `GetWindowText` into the 256-wide buffer (hence
truncated to its first 255 characters), contains the fragment as a
case-sensitive substring; it returns `none` exactly when no window's
truncated title contains the fragment (in particular when the enumeration
yields no windows). -/
theorem locator_first_truncated_match (frag : List Nat) (ws : List Window) :
    (findExistingFlutterWindow frag ws = none ↔
      ∀ w ∈ ws, containsFrag frag (w.title.take 255) = false) ∧
    ∀ w : Window, findExistingFlutterWindow frag ws = some w →
      containsFrag frag (w.title.take 255) = true ∧
      ∃ pre post, ws = pre ++ w :: post ∧
        ∀ v ∈ pre, containsFrag frag (v.title.take 255) = false :=
  ⟨findExisting_none_iff frag ws, fun w h => findExisting_some frag ws w h⟩

/-- C10: the locator compares the fragment only against the first 255
characters of each window's title: a window in the list at which every
occurrence of the fragment starts at index 255 or later is never the
locator's result. -/
theorem locator_truncates_at_255 (frag : List Nat) (ws : List Window)
    (w : Window)
    (hocc : ∀ i ≤ w.title.length,
      hasPrefixL frag (w.title.drop i) = true → 255 ≤ i) :
    findExistingFlutterWindow frag ws ≠ some w := by
  intro hfind
  have hc : containsFrag frag (getWindowText w) = true :=
    (findExisting_some frag ws w hfind).1
  unfold getWindowText at hc
  rcases containsFrag_exists hc with ⟨i, hi, hp⟩
  rw [List.length_take] at hi
  rw [List.drop_take] at hp
  have hp2 : hasPrefixL frag (w.title.drop i) = true := hasPrefixL_take hp
  have hlen : frag.length ≤ 255 - i := by
    have := hasPrefixL_length_le hp
    rw [List.length_take] at this
    omega
  have hile : i ≤ w.title.length := le_trans hi (min_le_right _ _)
  have h255 : 255 ≤ i := hocc i hile hp2
  have hi255 : i ≤ 255 := le_trans hi (min_le_left _ _)
  have hf0 : frag.length = 0 := by omega
  rcases List.length_eq_zero.mp hf0 with rfl
  have h0 : 255 ≤ 0 := hocc 0 (Nat.zero_le _) rfl
  omega

set_option maxRecDepth 8000 in
/-- Witness for C10: the window `wLong`, whose title's only occurrence of
`"NAI Launcher"` starts at index 255. -/
theorem locator_truncates_at_255_witness :
    (∀ i ≤ wLong.title.length,
      hasPrefixL naiLauncherFragment (wLong.title.drop i) = true → 255 ≤ i) ∧
      findExistingFlutterWindow naiLauncherFragment [wLong] ≠ some wLong :=
  ⟨by decide, locator_truncates_at_255 naiLauncherFragment [wLong] wLong (by decide)⟩

end NAILauncher
